import Mathlib

/-!
Shallow embedding of the Dopamine Hero session-reward and currency-ledger
engine, translated from the repository sources:

- `FocusSessionService` (createSession / completeSession /
  calculateEnergyEarned / calculateDopamineEarned) from
  docs/architecture-backend.md;
- `CurrencyService.processSessionRewards`, `CURRENCY_CONSTANTS` and the
  Decimal reference `calculateEnergy` from the coding-standards document;
- the `user_currency_balances` / `currency_transactions` schema and the
  `log_currency_transaction` trigger from the deployment document;
- the focus-sessions route validation (`plannedDuration` bounds) from the
  route definition and the API specification.

Monetary amounts are embedded as exact rationals; the JavaScript
`Math.round(x * 10^k) / 10^k` steps are embedded as `round2` / `round4`
(floor of x + 1/2, which is what `Math.round` computes).
-/

namespace DopamineHero

/-- JavaScript `Math.round`: floor of x + 1/2. -/
def jsRound (x : ℚ) : ℤ := ⌊x + 1/2⌋

/-- `Math.round(x * 100) / 100`: round to 2 decimal places, half toward plus infinity. -/
def round2 (x : ℚ) : ℚ := (jsRound (x * 100) : ℚ) / 100

/-- `Math.round(x * 10000) / 10000`: round to 4 decimal places, half toward plus infinity. -/
def round4 (x : ℚ) : ℚ := (jsRound (x * 10000) : ℚ) / 10000

/-- Task categories appearing in the `categoryBonuses` table of
`calculateEnergyEarned`; `other` stands for any category string absent from
the table, whose lookup falls back to 1.0 via `|| 1.0`. -/
inductive TaskCategory
  | analytical
  | creative
  | learning
  | physical
  | other
deriving DecidableEq, Repr

/-- The `categoryBonuses` table inside `FocusSessionService.calculateEnergyEarned`. -/
def categoryBonuses : TaskCategory → ℚ
  | .analytical => 12/10
  | .creative => 11/10
  | .learning => 23/20
  | .physical => 9/10
  | .other => 1

/-- Focus-session status enum from the schema and API specification. -/
inductive SessionStatus
  | planned
  | active
  | paused
  | completed
  | abandoned
deriving DecidableEq, Repr

/-- The session facts read by `completeSession`, `calculateEnergyEarned` and
`calculateDopamineEarned`: owner, status, optional task category, interruption
count, optional module-configuration id, start time (milliseconds) and planned
duration (minutes). -/
structure FSession where
  userId : ℕ
  status : SessionStatus
  task : Option TaskCategory
  interruptionCount : ℕ
  moduleConfigurationId : Option ℕ
  startTimeMs : ℕ
  plannedDuration : ℕ
deriving DecidableEq, Repr

/-- `FocusSessionService.calculateEnergyEarned(session, duration)`:
base energy = duration; category bonus if a task is attached; ×1.1 if
duration ≥ 25; a further ×1.2 if duration ≥ 50; ×max(0.5, 1 − 0.1·count) if
the interruption count is positive; `Math.round` to 2 decimal places. -/
def calculateEnergyEarned (session : FSession) (duration : ℚ) : ℚ :=
  let base1 := duration
  let base2 :=
    match session.task with
    | some c => base1 * categoryBonuses c
    | none => base1
  let base3 := if 25 ≤ duration then base2 * (11/10) else base2
  let base4 := if 50 ≤ duration then base3 * (12/10) else base3
  let base5 :=
    if 0 < session.interruptionCount then
      base4 * max (1/2) (1 - (session.interruptionCount : ℚ) / 10)
    else base4
  round2 base5

/-- `FocusSessionService.calculateDopamineEarned(session, duration)`:
0 when no module configuration id is attached; otherwise the Redis cache
entry `session:id` is read — a miss yields 0, and a hit yields
`dopamineGenerationRate × duration` rounded to 4 decimal places.
`cachedRate` embeds the cache lookup result (the `dopamineGenerationRate`
field of the cached session JSON when the entry is present). -/
def calculateDopamineEarned (session : FSession) (cachedRate : Option ℚ)
    (duration : ℚ) : ℚ :=
  match session.moduleConfigurationId with
  | none => 0
  | some _ =>
    match cachedRate with
    | none => 0
    | some rate => round4 (rate * duration)

/-- Redis TTL, in seconds, of the `session:id` entry written by
`createSession`: `data.plannedDuration * 60`. -/
def sessionCacheTTLSeconds (plannedDuration : ℕ) : ℕ := plannedDuration * 60

/-- Result record built by `completeSession`: the updated session fields plus
the two computed rewards. -/
structure SessionCompletionUpdate where
  status : SessionStatus
  endTimeMs : ℕ
  actualDuration : ℕ
  energyGenerated : ℚ
  dopamineGenerated : ℚ
deriving DecidableEq, Repr

/-- `FocusSessionService.completeSession(sessionId, userId, actualDuration?)`,
pure part: ownership check (`validateSessionAccess`), the status guard
`if (session.status !== 'active') throw`, duration derivation
`actualDuration || Math.floor((endTime − startTime) / 1000 / 60)` (note that a
JavaScript `0` override is falsy and falls through to the derived duration),
then the two reward calculations and the session update. Database writes, the
currency credit and the Redis delete are I/O performed after this point. -/
def completeSession (session : FSession) (callerId : ℕ) (cachedRate : Option ℚ)
    (actualDuration : Option ℕ) (nowMs : ℕ) :
    Except String SessionCompletionUpdate :=
  if session.userId ≠ callerId then .error "Access denied to focus session"
  else if session.status ≠ .active then .error "Only active sessions can be completed"
  else
    let derived := (nowMs - session.startTimeMs) / 60000
    let duration : ℕ :=
      match actualDuration with
      | some v => if v = 0 then derived else v
      | none => derived
    let energyEarned := calculateEnergyEarned session (duration : ℚ)
    let dopamineEarned := calculateDopamineEarned session cachedRate (duration : ℚ)
    .ok { status := .completed
          endTimeMs := nowMs
          actualDuration := duration
          energyGenerated := energyEarned
          dopamineGenerated := dopamineEarned }

/-- Boolean success projection for `completeSession` results. -/
def completionOk : Except String SessionCompletionUpdate → Bool
  | .ok _ => true
  | .error _ => false

/-! ## Ledger: currency constants, balances, transactions, trigger -/

/-- `CURRENCY_CONSTANTS.ENERGY.MAX_BALANCE`. -/
def ENERGY_MAX_BALANCE : ℚ := 10000

/-- `CURRENCY_CONSTANTS.DOPAMINE.MAX_BALANCE`. -/
def DOPAMINE_MAX_BALANCE : ℚ := 1000000

/-- `CURRENCY_CONSTANTS.VALIDATION.MIN_SESSION_DURATION`. -/
def MIN_SESSION_DURATION : ℤ := 1

/-- `CURRENCY_CONSTANTS.VALIDATION.MAX_SESSION_DURATION`. -/
def MAX_SESSION_DURATION : ℤ := 480

/-- The focus-sessions route guard on session creation:
`body plannedDuration .isInt with min 1 and max 120` (the API specification
states the same bounds: minimum 1, maximum 120). -/
def routeAcceptsPlannedDuration (n : ℤ) : Bool :=
  decide (1 ≤ n) && decide (n ≤ 120)

/-- One row of `user_currency_balances`. -/
structure CurrencyBalances where
  energy : ℚ
  dopamine : ℚ
  totalEnergyEarned : ℚ
  totalDopamineEarned : ℚ
deriving DecidableEq, Repr

/-- One row of `currency_transactions`. -/
structure CurrencyTransaction where
  userId : ℕ
  transactionType : String
  energyAmount : ℚ
  dopamineAmount : ℚ
  balanceAfterEnergy : ℚ
  balanceAfterDopamine : ℚ
  referenceId : Option ℕ
  referenceType : Option String
deriving DecidableEq, Repr

/-- Ledger persistent state: the `user_currency_balances` table (one row per
user id, provisioned at user creation by the `initialize_user_balance`
trigger) and the append-only `currency_transactions` table. -/
structure LedgerState where
  balances : ℕ → CurrencyBalances
  transactions : List CurrencyTransaction

/-- Pointwise update of one balance row. -/
def setBalance (f : ℕ → CurrencyBalances) (u : ℕ) (b : CurrencyBalances) :
    ℕ → CurrencyBalances :=
  fun v => if v = u then b else f v

/-- Rows inserted by the `log_currency_transaction` trigger on an update of a
`user_currency_balances` row: one `balance_update` row per currency whose
balance changed, carrying the delta, the post-update balance snapshot and a
NULL reference (the trigger is attached without arguments, so `TG_ARGV` is
empty). -/
def triggerRows (u : ℕ) (oldB newB : CurrencyBalances) :
    List CurrencyTransaction :=
  (if newB.energy ≠ oldB.energy then
    [{ userId := u
       transactionType := "balance_update"
       energyAmount := newB.energy - oldB.energy
       dopamineAmount := 0
       balanceAfterEnergy := newB.energy
       balanceAfterDopamine := newB.dopamine
       referenceId := none
       referenceType := none }]
   else []) ++
  (if newB.dopamine ≠ oldB.dopamine then
    [{ userId := u
       transactionType := "balance_update"
       energyAmount := 0
       dopamineAmount := newB.dopamine - oldB.dopamine
       balanceAfterEnergy := newB.energy
       balanceAfterDopamine := newB.dopamine
       referenceId := none
       referenceType := none }]
   else [])

/-- Error values surfaced by `processSessionRewards`: `ValidationError`
rethrown as-is, anything else wrapped as
`DatabaseError('Failed to process session rewards')`. -/
inductive CurrencyError
  | validationError (message : String)
  | databaseError (message : String)
deriving DecidableEq, Repr

/-- `CurrencyService.processSessionRewards(userId, energyAmount,
dopamineAmount, sessionId)`: inside one database transaction, read the
balance row, reject a negative energy amount (`ValidationError`), reject an
energy balance above `ENERGY.MAX_BALANCE` (`ValidationError`; the dopamine
balance is computed but never checked against its ceiling), then run the
single `UPDATE user_currency_balances` statement adding both deltas to the
balances and to the lifetime totals. The schema CHECK constraints reject
negative resulting columns (surfaced as the wrapped `DatabaseError`), and the
`log_currency_transaction` trigger appends its `balance_update` rows. The
function itself inserts no transaction row and performs no idempotency
lookup on `sessionId`, which it only logs. -/
def processSessionRewards (st : LedgerState) (userId : ℕ)
    (energyAmount dopamineAmount : ℚ) (sessionId : ℕ) :
    Except CurrencyError LedgerState :=
  let currentBalances := st.balances userId
  if energyAmount < 0 then
    .error (.validationError "Energy reward cannot be negative")
  else
    let newEnergyBalance := currentBalances.energy + energyAmount
    let _newDopamineBalance := currentBalances.dopamine + dopamineAmount
    if ENERGY_MAX_BALANCE < newEnergyBalance then
      .error (.validationError "Energy balance would exceed maximum limit")
    else
      let newB : CurrencyBalances :=
        { energy := currentBalances.energy + energyAmount
          dopamine := currentBalances.dopamine + dopamineAmount
          totalEnergyEarned := currentBalances.totalEnergyEarned + energyAmount
          totalDopamineEarned := currentBalances.totalDopamineEarned + dopamineAmount }
      if newB.energy < 0 ∨ newB.dopamine < 0 ∨
          newB.totalEnergyEarned < 0 ∨ newB.totalDopamineEarned < 0 then
        .error (.databaseError "Failed to process session rewards")
      else
        .ok { balances := setBalance st.balances userId newB
              transactions := st.transactions ++ triggerRows userId currentBalances newB }

/-- Number of `focus_session_reward` transactions referencing a given
session. -/
def focusSessionRewardCount (st : LedgerState) (sessionId : ℕ) : ℕ :=
  (st.transactions.filter
    (fun t => t.referenceId == some sessionId &&
      t.transactionType == "focus_session_reward")).length

/-- Energy balance of a user after a ledger call, `none` on error. -/
def resultEnergy (r : Except CurrencyError LedgerState) (u : ℕ) : Option ℚ :=
  match r with
  | .ok st => some ((st.balances u).energy)
  | .error _ => none

/-- Lifetime dopamine earned of a user after a ledger call, `none` on error. -/
def resultTotalDopamine (r : Except CurrencyError LedgerState) (u : ℕ) :
    Option ℚ :=
  match r with
  | .ok st => some ((st.balances u).totalDopamineEarned)
  | .error _ => none

/-- Reward-transaction count for a session after a ledger call, `none` on
error. -/
def resultRewardCount (r : Except CurrencyError LedgerState) (s : ℕ) :
    Option ℕ :=
  match r with
  | .ok st => some (focusSessionRewardCount st s)
  | .error _ => none

/-! ## Decimal reference implementation from the coding standards -/

/-- Modelled from the spec: the `CATEGORY_BONUSES` table referenced by the
Decimal reference `calculateEnergy` in the coding standards is not defined
anywhere under the sources; the specification fixes the category multipliers
as analytical 1.20, learning 1.15, creative 1.10, physical 0.90, otherwise
1.00 (the same values as the `categoryBonuses` table in
`calculateEnergyEarned`). -/
def CATEGORY_BONUSES : TaskCategory → ℚ
  | .analytical => 12/10
  | .learning => 23/20
  | .creative => 11/10
  | .physical => 9/10
  | .other => 1

/-- The Decimal-based reference `calculateEnergy(session, duration)` from the
coding standards: base energy = duration; category bonus via
`CATEGORY_BONUSES` with `|| 1` fallback when no task is attached; the
duration bonus `withBonus.mul(1.1)` is computed but its result is never
assigned (Decimal values are immutable, `mul` returns a fresh value), so it
does not affect the returned value; the result is rounded to 2 decimal
places. -/
def calculateEnergy (session : FSession) (duration : ℚ) : ℚ :=
  let baseEnergy := duration
  let categoryBonus : ℚ :=
    match session.task with
    | some c => CATEGORY_BONUSES c
    | none => 1
  let withBonus := baseEnergy * categoryBonus
  let _discardedDurationBonus :=
    if 25 ≤ duration then withBonus * (11/10) else withBonus
  round2 withBonus

/-! ## Concrete sessions and ledger states used in closed statements -/

/-- An active 25-minute analytical session with no interruptions. -/
def analyticalSession : FSession :=
  { userId := 0, status := .active, task := some .analytical,
    interruptionCount := 0, moduleConfigurationId := none,
    startTimeMs := 0, plannedDuration := 25 }

/-- A session with no module-configuration snapshot attached. -/
def sessionNoConfig : FSession :=
  { userId := 0, status := .active, task := none, interruptionCount := 0,
    moduleConfigurationId := none, startTimeMs := 0, plannedDuration := 30 }

/-- A session with a module-configuration snapshot attached. -/
def sessionWithConfig : FSession :=
  { userId := 0, status := .active, task := none, interruptionCount := 0,
    moduleConfigurationId := some 5, startTimeMs := 0, plannedDuration := 30 }

/-- A paused session. -/
def pausedSession : FSession :=
  { userId := 0, status := .paused, task := none, interruptionCount := 1,
    moduleConfigurationId := none, startTimeMs := 0, plannedDuration := 25 }

/-- An active session. -/
def activeSession : FSession :=
  { userId := 0, status := .active, task := none, interruptionCount := 0,
    moduleConfigurationId := none, startTimeMs := 0, plannedDuration := 25 }

/-- A provisioned balance row with some history. -/
def initialBalances : CurrencyBalances :=
  { energy := 100, dopamine := 10, totalEnergyEarned := 500,
    totalDopamineEarned := 50 }

/-- A ledger where every user has the `initialBalances` row and the
transaction table is empty. -/
def initialLedger : LedgerState :=
  { balances := fun _ => initialBalances, transactions := [] }

/-- A ledger whose user rows sit 5 energy below the configured ceiling. -/
def nearCapLedger : LedgerState :=
  { balances := fun _ =>
      { energy := 9995, dopamine := 0, totalEnergyEarned := 9995,
        totalDopamineEarned := 0 },
    transactions := [] }

/-- First credit of session 1 (energy 10, dopamine 2) against
`initialLedger`. -/
def afterFirstCredit : Except CurrencyError LedgerState :=
  processSessionRewards initialLedger 0 10 2 1

/-- Replay of the same credit of session 1 with identical arguments. -/
def afterSecondCredit : Except CurrencyError LedgerState :=
  match afterFirstCredit with
  | .ok st => processSessionRewards st 0 10 2 1
  | .error e => .error e

/-- The ledger state after the first credit (the first credit succeeds; the
fallback branch is never taken). -/
def creditedOnceState : LedgerState :=
  match afterFirstCredit with
  | .ok st => st
  | .error _ => initialLedger

/-- The ledger state after the replayed credit (both credits succeed; the
fallback branch is never taken). -/
def creditedTwiceState : LedgerState :=
  match afterSecondCredit with
  | .ok st => st
  | .error _ => initialLedger

/-! ## Spec-side restatements used for comparison -/

/-- Category multiplier exactly as the specification words it: analytical
1.20, learning 1.15, creative 1.10, physical 0.90, otherwise 1.00. -/
def specCategoryMultiplier : Option TaskCategory → ℚ
  | some .analytical => 12/10
  | some .learning => 23/20
  | some .creative => 11/10
  | some .physical => 9/10
  | _ => 1

/-- Energy reward exactly as the specification words it: duration times the
category multiplier, times 1.10 if duration ≥ 25 and a further 1.20 if
duration ≥ 50, times max(0.5, 1 − 0.1·interruptions), rounded half-up to two
decimal places. -/
def specEnergyFormula (task : Option TaskCategory) (k : ℕ) (d : ℚ) : ℚ :=
  round2 (d * specCategoryMultiplier task *
    (if 25 ≤ d then 11/10 else 1) *
    (if 50 ≤ d then 12/10 else 1) *
    max (1/2) (1 - (k : ℚ) / 10))

/-! ## Theorems -/

/-- Claim C4: for every session and actual duration, the energy reward of
`calculateEnergyEarned` equals the specified product — duration × category
multiplier (analytical 1.20, learning 1.15, creative 1.10, physical 0.90,
otherwise 1.00) × 1.10 when duration ≥ 25 × a further 1.20 when duration ≥ 50
× max(0.5, 1 − 0.1·interruptions) — rounded half-up to two decimal places;
in particular an analytical 25-minute session with no interruptions earns
exactly 33.00. -/
theorem energy_reward_matches_spec_formula :
    (∀ (s : FSession) (d : ℚ),
      calculateEnergyEarned s d = specEnergyFormula s.task s.interruptionCount d) ∧
    calculateEnergyEarned
      { userId := 0, status := .active, task := some .analytical,
        interruptionCount := 0, moduleConfigurationId := none,
        startTimeMs := 0, plannedDuration := 25 } 25 = 33 := by
  constructor
  · intro s d
    rcases s with ⟨u, stt, task, k, cfg, t0, p⟩
    simp only [calculateEnergyEarned, specEnergyFormula]
    rcases Nat.eq_zero_or_pos k with hk | hk
    · subst hk
      have hmax0 : max (1/2 : ℚ) (1 - ((0 : ℕ) : ℚ) / 10) = 1 := by norm_num
      rw [if_neg (lt_irrefl 0), hmax0]
      cases task with
      | none =>
        simp only [specCategoryMultiplier]
        split_ifs <;> (congr 1 <;> ring)
      | some c =>
        cases c <;> simp only [specCategoryMultiplier, categoryBonuses] <;>
          split_ifs <;> (congr 1 <;> ring)
    · rw [if_pos hk]
      cases task with
      | none =>
        simp only [specCategoryMultiplier]
        split_ifs <;> (congr 1 <;> ring)
      | some c =>
        cases c <;> simp only [specCategoryMultiplier, categoryBonuses] <;>
          split_ifs <;> (congr 1 <;> ring)
  · norm_num [calculateEnergyEarned, categoryBonuses, round2, jsRound]

/-- Claim C5: the dopamine reward is `aggregatedDopamineRate × actualDuration`
rounded half-up to 4 decimal places when the session has a snapshot and the
cached rate is available, and is exactly 0 — not an error — when no
module-configuration snapshot is attached; a rate of 0.05 per minute over 30
minutes yields 1.5000. -/
theorem dopamine_reward_formula (s : FSession) (cache : Option ℚ) (d r : ℚ) :
    (s.moduleConfigurationId = none → calculateDopamineEarned s cache d = 0) ∧
    (s.moduleConfigurationId ≠ none → cache = some r →
      calculateDopamineEarned s cache d = round4 (r * d)) ∧
    calculateDopamineEarned sessionWithConfig (some (1/20)) 30 = 15/10 := by
  refine ⟨?_, ?_, ?_⟩
  · intro h
    unfold calculateDopamineEarned
    rw [h]
  · intro h1 h2
    cases hc : s.moduleConfigurationId with
    | none => exact absurd hc h1
    | some c =>
      subst h2
      unfold calculateDopamineEarned
      rw [hc]
  · norm_num [calculateDopamineEarned, sessionWithConfig, round4, jsRound]

/-- Claim C5 witness: a session without a snapshot earns 0 dopamine, and a
session with a snapshot and a cached rate of 0.05 over 30 minutes earns the
rounded product. -/
theorem dopamine_reward_formula_witness :
    calculateDopamineEarned sessionNoConfig none 7 = 0 ∧
    calculateDopamineEarned sessionWithConfig (some (1/20)) 30 =
      round4 ((1/20) * 30) :=
  ⟨(dopamine_reward_formula sessionNoConfig none 7 0).1 rfl,
   (dopamine_reward_formula sessionWithConfig (some (1/20)) 30 (1/20)).2.1
     (by decide) rfl⟩

/-- Claim C9: the Redis cache entry for a session is written with a
time-to-live of plannedDuration × 60 seconds, and when that entry is absent
at completion time `calculateDopamineEarned` returns 0 even though a
module-configuration snapshot is attached to the session (a present entry
with rate 0.05 over 30 minutes would have yielded 1.5), so the dopamine
reward of a session completed after the cache expired is silently lost. -/
theorem dopamine_lost_when_cache_absent (s : FSession) (c : ℕ) (d : ℚ) (p : ℕ)
    (hc : s.moduleConfigurationId = some c) :
    sessionCacheTTLSeconds p = p * 60 ∧
    calculateDopamineEarned s none d = 0 ∧
    calculateDopamineEarned sessionWithConfig (some (1/20)) 30 = 15/10 := by
  refine ⟨rfl, ?_, ?_⟩
  · unfold calculateDopamineEarned
    rw [hc]
  · norm_num [calculateDopamineEarned, sessionWithConfig, round4, jsRound]

/-- Claim C9 witness: a session holding snapshot 5, completed once the cache
entry is gone, earns 0 dopamine. -/
theorem dopamine_lost_when_cache_absent_witness :
    sessionCacheTTLSeconds 25 = 25 * 60 ∧
    calculateDopamineEarned sessionWithConfig none 30 = 0 ∧
    calculateDopamineEarned sessionWithConfig (some (1/20)) 30 = 15/10 :=
  dopamine_lost_when_cache_absent sessionWithConfig 5 30 25 rfl

/-- Claim C6 counterexample: a paused session cannot be completed — the code
guards `session.status !== 'active'`, so `completeSession` on a paused
session throws instead of transitioning it to completed as the claim
states. -/
theorem paused_session_cannot_complete :
    completeSession pausedSession 0 none none 1500000 =
      .error "Only active sessions can be completed" := rfl

/-- Claim C6 (amended): for the owning user, `completeSession` succeeds
exactly when the session is in the active state; from any other state —
paused included — it fails with the error
"Only active sessions can be completed" and no completed session is
produced. -/
theorem complete_only_from_active (s : FSession) (caller : ℕ) (cache : Option ℚ)
    (ov : Option ℕ) (nowMs : ℕ) (hown : s.userId = caller) :
    (s.status = .active →
      completionOk (completeSession s caller cache ov nowMs) = true) ∧
    (s.status ≠ .active →
      completeSession s caller cache ov nowMs =
        .error "Only active sessions can be completed") := by
  constructor
  · intro h
    simp [completeSession, hown, h, completionOk]
  · intro h
    simp [completeSession, hown, h]

/-- Claim C6 witness: an active session completes successfully, while the
paused session is rejected. -/
theorem complete_only_from_active_witness :
    completionOk (completeSession activeSession 0 none none 1500000) = true ∧
    completeSession pausedSession 0 none none 1500000 =
      .error "Only active sessions can be completed" :=
  ⟨(complete_only_from_active activeSession 0 none none 1500000 rfl).1 rfl,
   (complete_only_from_active pausedSession 0 none none 1500000 rfl).2
     (by decide)⟩

/-- Claim C7 counterexample: plannedDuration 480 equals the configured
maximum `MAX_SESSION_DURATION`, so the claim says it must be accepted, but
the focus-sessions route validator rejects it (its cap is 120). -/
theorem planned_duration_480_rejected :
    routeAcceptsPlannedDuration 480 = false ∧ MAX_SESSION_DURATION = 480 :=
  ⟨rfl, rfl⟩

/-- Claim C7 (amended): session creation accepts plannedDuration exactly in
the range [1, 120] enforced by the route validator and the API schema; the
shared constant `MAX_SESSION_DURATION` = 480 is not what the route
enforces. -/
theorem planned_duration_route_bounds (n : ℤ) :
    routeAcceptsPlannedDuration n = true ↔ 1 ≤ n ∧ n ≤ 120 := by
  simp [routeAcceptsPlannedDuration]

/-- Helper: the balance row written by a successful `processSessionRewards`
call, the untouched rows, and the appended trigger rows. -/
lemma processSessionRewards_ok_spec {st st1 : LedgerState} {u s : ℕ} {e d : ℚ}
    (h : processSessionRewards st u e d s = .ok st1) :
    st1.balances u =
      { energy := (st.balances u).energy + e
        dopamine := (st.balances u).dopamine + d
        totalEnergyEarned := (st.balances u).totalEnergyEarned + e
        totalDopamineEarned := (st.balances u).totalDopamineEarned + d } ∧
    (∀ v, v ≠ u → st1.balances v = st.balances v) ∧
    st1.transactions = st.transactions ++
      triggerRows u (st.balances u)
        { energy := (st.balances u).energy + e
          dopamine := (st.balances u).dopamine + d
          totalEnergyEarned := (st.balances u).totalEnergyEarned + e
          totalDopamineEarned := (st.balances u).totalDopamineEarned + d } := by
  simp only [processSessionRewards] at h
  split_ifs at h
  all_goals
    first
      | (injection h with h
         subst h
         exact ⟨by simp [setBalance],
           fun v hv => by simp [setBalance, hv], rfl⟩)
      | exact absurd h (by simp)

/-- Helper: trigger rows never carry the focus_session_reward type, so they
never count toward a session reward lookup. -/
lemma triggerRows_reward_filter (u : ℕ) (oldB newB : CurrencyBalances)
    (s : ℕ) :
    (triggerRows u oldB newB).filter
      (fun t => t.referenceId == some s &&
        t.transactionType == "focus_session_reward") = [] := by
  unfold triggerRows
  split_ifs <;> rfl

/-- Helper: a successful credit leaves every reward-transaction count
unchanged. -/
lemma rewardCount_eq_of_ok {st st1 : LedgerState} {u s : ℕ} {e d : ℚ}
    (h : processSessionRewards st u e d s = .ok st1) (s2 : ℕ) :
    focusSessionRewardCount st1 s2 = focusSessionRewardCount st s2 := by
  obtain ⟨-, -, htx⟩ := processSessionRewards_ok_spec h
  unfold focusSessionRewardCount
  rw [htx, List.filter_append, triggerRows_reward_filter, List.append_nil]

/-- Claim C1 counterexample: crediting session 1 twice with identical
arguments (energy 10, dopamine 2) moves the energy balance 100 → 110 → 120 —
the balance update is applied twice, not once — and the ledger holds zero
(not exactly one) focus_session_reward transactions for the session, so the
second call cannot return an existing transaction unchanged. -/
theorem double_credit_not_idempotent :
    resultEnergy afterFirstCredit 0 = some 110 ∧
    resultEnergy afterSecondCredit 0 = some 120 ∧
    resultRewardCount afterSecondCredit 1 = some 0 := by
  norm_num [afterFirstCredit, afterSecondCredit, processSessionRewards,
    initialLedger, initialBalances, resultEnergy, resultRewardCount,
    setBalance, triggerRows, focusSessionRewardCount, ENERGY_MAX_BALANCE,
    List.filter]

/-- Claim C1 (amended): `processSessionRewards` performs no idempotency check
and writes no focus_session_reward transaction, so two successful calls with
the same (userId, sessionId, energyDelta, dopamineDelta) apply the balance
update twice — balances and lifetime totals each grow by twice the delta —
and the count of focus_session_reward transactions for the session stays
unchanged (it never becomes one). -/
theorem double_credit_applies_twice (st st1 st2 : LedgerState) (u s : ℕ)
    (e d : ℚ)
    (h1 : processSessionRewards st u e d s = .ok st1)
    (h2 : processSessionRewards st1 u e d s = .ok st2) :
    (st2.balances u).energy = (st.balances u).energy + e + e ∧
    (st2.balances u).dopamine = (st.balances u).dopamine + d + d ∧
    (st2.balances u).totalEnergyEarned =
      (st.balances u).totalEnergyEarned + e + e ∧
    (st2.balances u).totalDopamineEarned =
      (st.balances u).totalDopamineEarned + d + d ∧
    focusSessionRewardCount st2 s = focusSessionRewardCount st s := by
  obtain ⟨hb1, -, -⟩ := processSessionRewards_ok_spec h1
  obtain ⟨hb2, -, -⟩ := processSessionRewards_ok_spec h2
  rw [rewardCount_eq_of_ok h2 s, rewardCount_eq_of_ok h1 s]
  rw [hb2, hb1]
  simp

/-- Helper: the first concrete credit succeeds and produces
`creditedOnceState`. -/
lemma firstCredit_ok :
    processSessionRewards initialLedger 0 10 2 1 = .ok creditedOnceState := by
  norm_num [creditedOnceState, afterFirstCredit, processSessionRewards,
    initialLedger, initialBalances, ENERGY_MAX_BALANCE]

/-- Helper: the replayed concrete credit succeeds and produces
`creditedTwiceState`. -/
lemma secondCredit_ok :
    processSessionRewards creditedOnceState 0 10 2 1 = .ok creditedTwiceState := by
  norm_num [creditedTwiceState, creditedOnceState, afterSecondCredit,
    afterFirstCredit, processSessionRewards, initialLedger, initialBalances,
    ENERGY_MAX_BALANCE, setBalance]

/-- Claim C1 witness: the concrete double credit of session 1 against
`initialLedger`. -/
theorem double_credit_applies_twice_witness :
    (creditedTwiceState.balances 0).energy =
      (initialLedger.balances 0).energy + 10 + 10 ∧
    (creditedTwiceState.balances 0).dopamine =
      (initialLedger.balances 0).dopamine + 2 + 2 ∧
    (creditedTwiceState.balances 0).totalEnergyEarned =
      (initialLedger.balances 0).totalEnergyEarned + 10 + 10 ∧
    (creditedTwiceState.balances 0).totalDopamineEarned =
      (initialLedger.balances 0).totalDopamineEarned + 2 + 2 ∧
    focusSessionRewardCount creditedTwiceState 1 =
      focusSessionRewardCount initialLedger 1 :=
  double_credit_applies_twice initialLedger creditedOnceState
    creditedTwiceState 0 1 10 2 firstCredit_ok secondCredit_ok

/-- Claim C2 counterexample: the successful credit of session 1 (energy 10,
dopamine 2) against the empty-history ledger persists the new balance
(energy 110) but inserts no CurrencyTransaction row of the session-reward
kind: there is no transaction referencing session 1 at all, so no row whose
balance-after fields could witness the write. -/
theorem credit_writes_no_session_transaction :
    resultEnergy afterFirstCredit 0 = some 110 ∧
    resultRewardCount afterFirstCredit 1 = some 0 := by
  norm_num [afterFirstCredit, processSessionRewards, initialLedger,
    initialBalances, resultEnergy, resultRewardCount, setBalance, triggerRows,
    focusSessionRewardCount, ENERGY_MAX_BALANCE, List.filter]

/-- Claim C2 (amended): a successful credit atomically persists the updated
CurrencyBalance row — both balances and both lifetime totals incremented,
other users untouched — but the service itself inserts no transaction row:
the only rows appended are produced by the schema trigger, carry type
balance_update rather than focus_session_reward, and their balance-after
fields do equal the balance written; a credit changing neither balance
appends no row at all. -/
theorem credit_persists_balance_trigger_rows (st st1 : LedgerState)
    (u s : ℕ) (e d : ℚ)
    (h : processSessionRewards st u e d s = .ok st1) :
    st1.balances u =
      { energy := (st.balances u).energy + e
        dopamine := (st.balances u).dopamine + d
        totalEnergyEarned := (st.balances u).totalEnergyEarned + e
        totalDopamineEarned := (st.balances u).totalDopamineEarned + d } ∧
    (∀ v, v ≠ u → st1.balances v = st.balances v) ∧
    st1.transactions = st.transactions ++
      triggerRows u (st.balances u) (st1.balances u) ∧
    (∀ t ∈ triggerRows u (st.balances u) (st1.balances u),
      t.transactionType = "balance_update" ∧
      t.balanceAfterEnergy = (st1.balances u).energy ∧
      t.balanceAfterDopamine = (st1.balances u).dopamine) ∧
    focusSessionRewardCount st1 s = focusSessionRewardCount st s := by
  obtain ⟨hb, hrest, htx⟩ := processSessionRewards_ok_spec h
  refine ⟨hb, hrest, ?_, ?_, rewardCount_eq_of_ok h s⟩
  · rw [hb]
    exact htx
  · intro t ht
    unfold triggerRows at ht
    split_ifs at ht <;> simp only [List.mem_append, List.mem_singleton,
      List.mem_cons, List.not_mem_nil, or_false, false_or] at ht <;>
      rcases ht with rfl | rfl <;> simp_all

/-- Claim C2 witness: the concrete successful credit of session 1 against
`initialLedger`. -/
theorem credit_persists_balance_trigger_rows_witness :
    creditedOnceState.balances 0 =
      { energy := (initialLedger.balances 0).energy + 10
        dopamine := (initialLedger.balances 0).dopamine + 2
        totalEnergyEarned := (initialLedger.balances 0).totalEnergyEarned + 10
        totalDopamineEarned :=
          (initialLedger.balances 0).totalDopamineEarned + 2 } ∧
    (∀ v, v ≠ 0 → creditedOnceState.balances v = initialLedger.balances v) ∧
    creditedOnceState.transactions = initialLedger.transactions ++
      triggerRows 0 (initialLedger.balances 0) (creditedOnceState.balances 0) ∧
    (∀ t ∈ triggerRows 0 (initialLedger.balances 0)
        (creditedOnceState.balances 0),
      t.transactionType = "balance_update" ∧
      t.balanceAfterEnergy = (creditedOnceState.balances 0).energy ∧
      t.balanceAfterDopamine = (creditedOnceState.balances 0).dopamine) ∧
    focusSessionRewardCount creditedOnceState 1 =
      focusSessionRewardCount initialLedger 1 :=
  credit_persists_balance_trigger_rows initialLedger creditedOnceState
    0 1 10 2 firstCredit_ok

/-- Claim C3 counterexample: with an energy balance of 9995, a session-reward
credit of 10 energy would reach 10005 > 10000; the claim says the credit
succeeds with the delta clamped to the ceiling, but the code rejects the
whole credit with a ValidationError and applies nothing. -/
theorem overflow_credit_rejected :
    processSessionRewards nearCapLedger 0 10 0 1 =
      .error (.validationError "Energy balance would exceed maximum limit") := by
  norm_num [processSessionRewards, nearCapLedger, ENERGY_MAX_BALANCE]

/-- Claim C3 (amended): when a session-reward credit would push the energy
balance past the configured maximum of 10,000, the credit does not succeed
with a clamped delta — it fails with the ValidationError
"Energy balance would exceed maximum limit" and neither balance update nor
transaction takes place. -/
theorem overflow_rejects_instead_of_clamping (st : LedgerState) (u s : ℕ)
    (e d : ℚ) (he : ¬ e < 0)
    (hover : ENERGY_MAX_BALANCE < (st.balances u).energy + e) :
    processSessionRewards st u e d s =
      .error (.validationError "Energy balance would exceed maximum limit") := by
  simp only [processSessionRewards]
  rw [if_neg he, if_pos hover]

/-- Claim C3 witness: a 20-energy credit against a 9995-energy balance is
rejected. -/
theorem overflow_rejects_instead_of_clamping_witness :
    processSessionRewards nearCapLedger 0 20 1 2 =
      .error (.validationError "Energy balance would exceed maximum limit") :=
  overflow_rejects_instead_of_clamping nearCapLedger 0 2 20 1
    (by norm_num) (by norm_num [nearCapLedger, ENERGY_MAX_BALANCE])

/-- Claim C8: the code violates the lifetime-monotonicity invariant it aims
at — `processSessionRewards` validates only the energy amount against
negativity, so a credit with a negative dopamine amount succeeds and
decreases total_dopamine_earned: from `initialLedger` (lifetime dopamine
earned 50), processSessionRewards(user 0, energy 0, dopamine −5, session 1)
succeeds and leaves the lifetime dopamine earned at 45 < 50. -/
theorem lifetime_dopamine_can_decrease :
    resultTotalDopamine (processSessionRewards initialLedger 0 0 (-5) 1) 0 =
      some 45 ∧ (45 : ℚ) < 50 := by
  constructor
  · norm_num [processSessionRewards, initialLedger, initialBalances,
      resultTotalDopamine, setBalance, ENERGY_MAX_BALANCE]
  · norm_num

/-- Claim C10 counterexample: at a 25-minute analytical session the Decimal
reference `calculateEnergy` returns 30.00 (its duration-bonus multiplication
is discarded) while `calculateEnergyEarned` returns 33.00, so the two
implementations disagree. -/
theorem decimal_reference_disagrees :
    calculateEnergy analyticalSession 25 = 30 ∧
    calculateEnergyEarned analyticalSession 25 = 33 ∧
    calculateEnergy analyticalSession 25 ≠
      calculateEnergyEarned analyticalSession 25 := by
  refine ⟨?_, ?_, ?_⟩
  · norm_num [calculateEnergy, CATEGORY_BONUSES, analyticalSession, round2,
      jsRound]
  · norm_num [calculateEnergyEarned, categoryBonuses, analyticalSession,
      round2, jsRound]
  · norm_num [calculateEnergy, calculateEnergyEarned, CATEGORY_BONUSES,
      categoryBonuses, analyticalSession, round2, jsRound]

/-- Claim C10 (amended): the Decimal reference `calculateEnergy` agrees with
`calculateEnergyEarned` exactly on the inputs where the logic it omits is
inert — nonnegative durations below the 25-minute tier and zero
interruptions; beyond that the reference differs because the result of its
duration-bonus multiplication is discarded and it implements neither the
50-minute bonus nor the interruption penalty. -/
theorem decimal_reference_agrees_below_tier (s : FSession) (d : ℚ)
    (_hd0 : 0 ≤ d) (hd : d < 25) (hk : s.interruptionCount = 0) :
    calculateEnergy s d = calculateEnergyEarned s d := by
  simp only [calculateEnergy, calculateEnergyEarned]
  rw [hk, if_neg (lt_irrefl 0), if_neg (not_le.mpr hd),
    if_neg (not_le.mpr (lt_trans hd (by norm_num)))]
  cases h : s.task with
  | none => rw [mul_one]
  | some c => cases c <;> rfl

/-- Claim C10 witness: on a 10-minute session with no task and no
interruptions both implementations return 10.00. -/
theorem decimal_reference_agrees_below_tier_witness :
    calculateEnergy sessionNoConfig 10 = calculateEnergyEarned sessionNoConfig 10 :=
  decimal_reference_agrees_below_tier sessionNoConfig 10 (by norm_num)
    (by norm_num) rfl

end DopamineHero

